import Mathlib

/-!
Shallow embedding of `src/journee6/cpg.c` (a Corosync CPG background worker
for PostgreSQL) and proofs about its membership/role coordination core.

Machine integers are modelled as `Nat`/`Int` with explicit reductions
modulo `2^32` where the C code stores into 32-bit variables, and the
`%d`-reinterpretation of `uint32_t` values is modelled by `toInt32`.
Strings are modelled as Lean `String`/`List Char` (all characters involved
are ASCII, so character counts coincide with byte counts).
-/

namespace Cpg

/-! ### Corosync constants (from corosync/corotypes.h) -/

/-- cs_error_t CS_OK. -/
def CS_OK : Int := 1

/-- cs_error_t CS_ERR_TRY_AGAIN. -/
def CS_ERR_TRY_AGAIN : Int := 6

/-- cs_error_t CS_ERR_INVALID_PARAM. -/
def CS_ERR_INVALID_PARAM : Int := 7

/-- INT_MAX from limits.h (32-bit int). -/
def INT_MAX : Int := 2147483647

/-- CPG_MAX_NAME_LENGTH from corosync/cpg.h. -/
def CPG_MAX_NAME_LENGTH : Nat := 128

/-- Reinterpretation of a `uint32_t` value as a signed 32-bit `int`,
as C's `%d` conversion and the `(pid_t)` cast perform. -/
def toInt32 (n : Nat) : Int :=
  if n < 2 ^ 31 then (n : Int) else (n : Int) - 2 ^ 32

/-- struct cpg_address (corosync/cpg.h): nodeid and pid are `uint32_t`.
The `reason` field is never read by cpg.c and is omitted. -/
structure cpg_address where
  nodeid : Nat
  pid : Nat
deriving Repr, DecidableEq

/-- struct cpg_name: a length field and up to CPG_MAX_NAME_LENGTH bytes. -/
structure cpg_name where
  length : Nat
  value : String
deriving Repr, DecidableEq

/-! ### Group name (cpg.c line 31 and lines 225-227) -/

/-- #define CPG_GROUP_NAME "pgsql_group" (cpg.c line 31). -/
def CPG_GROUP_NAME : String := "pgsql_group"

/-- The `cpg_group` structure as initialized in cpg_main (lines 226-227):
`strncpy(cpg_group.value, CPG_GROUP_NAME, CPG_MAX_NAME_LENGTH)` followed by
`cpg_group.length = strlen(CPG_GROUP_NAME)`. -/
def cpg_group : cpg_name :=
  { value := String.mk (CPG_GROUP_NAME.data.take CPG_MAX_NAME_LENGTH)
    length := CPG_GROUP_NAME.length }

/-! ### Status projection (cpg.c lines 62-73) -/

/-- update_ps_display: formats `"[%u] Hello!"` or `"[%u] I'm the primary!"`
into a 128-byte buffer with snprintf (which truncates to 127 characters
plus the terminating NUL) and passes the result to set_ps_display.
The returned string is the one handed to the process-title sink. -/
def update_ps_display (in_recovery : Bool) (members : Nat) : String :=
  let s :=
    if in_recovery then
      "[" ++ toString members ++ "] Hello!"
    else
      "[" ++ toString members ++ "] I'm the primary!"
  String.mk (s.data.take 127)

/-! ### Substring search (used to state "the log includes the numeric cause") -/

/-- Whether `pat` occurs at the start of `l`. -/
def startsWithL : List Char → List Char → Bool
  | [], _ => true
  | _ :: _, [] => false
  | p :: ps, c :: cs => p == c && startsWithL ps cs

/-- Whether `pat` occurs contiguously anywhere inside `l`. -/
def containsSub (pat : List Char) : List Char → Bool
  | [] => startsWithL pat []
  | c :: cs => startsWithL pat (c :: cs) || containsSub pat cs

/-- A log message "includes the numeric cause `rc`" when the decimal
rendering of `rc` occurs inside the message. -/
def msgHasCode (msg : String) (rc : Int) : Bool :=
  containsSub (toString rc).data msg.data

/-! ### Membership callback cs_config_cb (cpg.c lines 97-133) -/

/-- One `appendStringInfo(&msg, ", %d/%d", nodeid, pid)` step: the bytes
appended for one member (`%d` reinterprets the `uint32_t` fields). -/
def fmtAddr (a : cpg_address) : List Char :=
  (", " ++ toString (toInt32 a.nodeid) ++ "/" ++ toString (toInt32 a.pid)).data

/-- The accumulated StringInfo buffer after the formatting loop of
cs_config_cb (lines 115-118): starts empty, appends `fmtAddr` per member. -/
def buildMsg (member_list : List cpg_address) : List Char :=
  member_list.foldl (fun acc a => acc ++ fmtAddr a) []

/-- The rendering of one member as `nodeid/pid` (both through `%d`). -/
def pairChars (a : cpg_address) : List Char :=
  (toString (toInt32 a.nodeid) ++ "/" ++ toString (toInt32 a.pid)).data

/-- The `nodeid/pid` pairs of a view, in order, separated by `", "`:
the expected shape of the member-list portion of the LOG line. -/
def pairListChars : List cpg_address → List Char
  | [] => []
  | [a] => pairChars a
  | a :: b :: rest => pairChars a ++ (", ").data ++ pairListChars (b :: rest)

/-- Outcome of one run of the cs_config_cb callback. `fatal` means the
process terminated inside the callback via elog(FATAL); the fields record
the side effects that happened before termination. -/
inductive CbResult where
  | normal (members : Nat) (psDisplay : String) (logLine : String)
  | fatal (members : Nat) (psDisplay : String) (logLine : String) (msg : String)
deriving Repr, DecidableEq

/-- The `members` value stored by a callback run. -/
def CbResult.membersOf : CbResult → Nat
  | .normal m _ _ => m
  | .fatal m _ _ _ => m

/-- cs_config_cb (cpg.c lines 97-133). In order: store
`members = member_list_entries` (a size_t stored into a `uint32_t`, hence
mod 2^32), refresh the process title, build the member-list string, emit
the LOG line using `msg.data+2` (drop the 2-byte leading ", "), then check
whether `left_list[0]` is our own address (`(pid_t)pid == MyProcPid` and
`nodeid == MyNodeID`) and if so terminate with elog(FATAL). -/
def cs_config_cb (MyNodeID : Nat) (MyProcPid : Int) (in_recovery : Bool)
    (member_list left_list joined_list : List cpg_address) : CbResult :=
  let members := member_list.length % 2 ^ 32
  let ps := update_ps_display in_recovery members
  let msg := buildMsg member_list
  let logLine :=
    "[cpg] " ++ toString joined_list.length ++ " join, " ++
      toString left_list.length ++ " left, procs in group now: " ++
      String.mk (msg.drop 2)
  match left_list with
  | a :: _ =>
    if toInt32 a.pid = MyProcPid ∧ a.nodeid = MyNodeID then
      .fatal members ps logLine "[cpg] I left the closed process group!"
    else
      .normal members ps logLine
  | [] => .normal members ps logLine

/-! ### Role sampling (cpg.c lines 265-272) -/

/-- Result of the role-sampling step of one loop iteration. -/
structure RoleStep where
  in_recovery : Bool
  logLine : String
  psUpdate : Option String
deriving Repr, DecidableEq

/-- The role check in cpg_main's loop (lines 265-272): if
`RecoveryInProgress() != in_recovery`, log "I've been promoted!", store
the new role and refresh the process title; otherwise log the heartbeat. -/
def roleCheck (in_recovery roleNow : Bool) (members : Nat) : RoleStep :=
  if roleNow ≠ in_recovery then
    { in_recovery := roleNow
      logLine := "[cpg] I've been promoted!"
      psUpdate := some (update_ps_display roleNow members) }
  else
    { in_recovery := in_recovery
      logLine := "[cpg] Hi!"
      psUpdate := none }

/-! ### Dispatch classification (cpg.c lines 254-263) -/

/-- Classification of a single non-blocking dispatch attempt. -/
inductive DispatchOutcome where
  | delivered
  | idle
  | fatal (msg : String)
deriving Repr, DecidableEq

/-- The handling of `cpg_dispatch(gh, CS_DISPATCH_ONE_NONBLOCKING)` in
cpg_main (lines 256-263): CS_OK logs a DEBUG line (one event dispatched);
any other code except CS_ERR_TRY_AGAIN is an elog(FATAL); CS_ERR_TRY_AGAIN
means no event was pending and the loop continues. -/
def dispatchStep (rc : Int) : DispatchOutcome :=
  if rc = CS_OK then .delivered
  else if rc ≠ CS_ERR_TRY_AGAIN then
    .fatal ("[cpg] dispatching callback failed: " ++ toString rc)
  else .idle

/-! ### The event loop (cpg.c lines 249-290) -/

/-- The mutable global state the loop body touches. -/
structure AgentState where
  interval : Int
  in_recovery : Bool
  members : Nat
  MyNodeID : Nat
deriving Repr, DecidableEq

/-- External inputs consumed by one loop iteration: whether
CHECK_FOR_INTERRUPTS exits, the cpg_dispatch return code, the confchg
event delivered when one was pending (cpg_deliver_fn is NULL, so a
membership delta is the only callback that can run), the role sampled by
RecoveryInProgress(), and a new `interval` if HandleMainLoopInterrupts
services a SIGHUP reload. -/
structure LoopInputs where
  interruptExit : Bool
  rc : Int
  cbArgs : Option (List cpg_address × List cpg_address × List cpg_address)
  roleNow : Bool
  reload : Option Int
deriving Repr, DecidableEq

/-- Outcome of one iteration of the `for(;;)` loop. `breakLoop` would be
leaving the loop normally and falling through to the trailing exit(1);
the body contains no `break`, so it is never produced. -/
inductive IterOutcome where
  | next (s : AgentState) (waitTimeoutMs : Int)
  | interruptExit
  | fatalExit (msg : String)
  | breakLoop
deriving Repr, DecidableEq

/-- The tail of a loop iteration after the dispatch step: role sampling,
HandleMainLoopInterrupts (config reload), then WaitLatchOrSocket with
timeout `interval*1000` milliseconds and ResetLatch. -/
def loopTail (s : AgentState) (inp : LoopInputs) : IterOutcome :=
  let r := roleCheck s.in_recovery inp.roleNow s.members
  let s₁ := { s with in_recovery := r.in_recovery }
  let s₂ :=
    match inp.reload with
    | some i => { s₁ with interval := i }
    | none => s₁
  .next s₂ (s₂.interval * 1000)

/-- One iteration of cpg_main's event loop (lines 250-286):
CHECK_FOR_INTERRUPTS, one non-blocking dispatch (running cs_config_cb when
a membership event is delivered), role check, reload handling, wait. -/
def loopStep (MyProcPid : Int) (s : AgentState) (inp : LoopInputs) :
    IterOutcome :=
  if inp.interruptExit then .interruptExit
  else
    match dispatchStep inp.rc with
    | .fatal msg => .fatalExit msg
    | .delivered =>
      match inp.cbArgs with
      | some (m, l, j) =>
        match cs_config_cb s.MyNodeID MyProcPid s.in_recovery m l j with
        | .fatal _ _ _ msg => .fatalExit msg
        | .normal mem _ _ => loopTail { s with members := mem } inp
      | none => loopTail s inp
    | .idle => loopTail s inp

/-! ### Session-open sequence (cpg.c lines 219-247) -/

/-- Result of the initialization/join/local_get/fd_get sequence. -/
inductive OpenResult where
  | ok (logs : List String)
  | fatalLog (msg : String)
deriving Repr, DecidableEq

/-- The session-open sequence of cpg_main (lines 219-247), as a function of
the four substrate return codes: cpg_model_initialize, cpg_join,
cpg_local_get, cpg_fd_get. Each failure is an elog(FATAL) with the message
the code formats. -/
def openSequence (rc_init rc_join rc_local rc_fd : Int) : OpenResult :=
  if rc_init ≠ CS_OK then
    .fatalLog ("[cpg] could not init the cpg handle: " ++ toString rc_init)
  else if rc_join = CS_OK then
    if rc_local ≠ CS_OK then
      .fatalLog ("[cpg] failed to get local nodeid: " ++ toString rc_local)
    else if rc_fd ≠ CS_OK then
      .fatalLog ("[cpg] failed to get the CPG file descriptor: " ++
        toString rc_fd)
    else
      .ok ["[cpg] joined group 'pgsql_group"]
  else if rc_join = CS_ERR_INVALID_PARAM then
    .fatalLog "[cpg] the handle is already joined to a group"
  else
    .fatalLog ("[cpg] could not join the close process group: " ++
      toString rc_join)

/-! ### Configuration surface (cpg.c lines 174-187) -/

/-- PostgreSQL GUC contexts (subset relevant here). -/
inductive GucContext where
  | PGC_POSTMASTER
  | PGC_SIGHUP
  | PGC_SUSET
  | PGC_USERSET
deriving Repr, DecidableEq

/-- A custom integer GUC definition as passed to DefineCustomIntVariable. -/
structure IntGuc where
  name : String
  defaultVal : Int
  minVal : Int
  maxVal : Int
  context : GucContext
deriving Repr, DecidableEq

/-- The `cpg.interval` option (cpg.c lines 175-187): integer seconds,
default 10, min 1, max INT_MAX/1000, context PGC_SIGHUP. -/
def cpg_interval_guc : IntGuc :=
  { name := "cpg.interval"
    defaultVal := 10
    minVal := 1
    maxVal := INT_MAX / 1000
    context := .PGC_SIGHUP }

/-- All GUCs the module defines (the `cpg` namespace is then reserved). -/
def cpg_gucs : List IntGuc := [cpg_interval_guc]

/-- The timeout argument of WaitLatchOrSocket (line 283):
`interval*1000 /* convert to milliseconds */`. -/
def wait_timeout_ms (interval : Int) : Int := interval * 1000

/-! ### Signal handler and loop fall-through (cpg.c lines 80-86, 288-290) -/

/-- cpg_sigterm (lines 80-86): the logged line and the exit status. -/
def cpg_sigterm : String × Nat := ("[cpg] …and leaving", 0)

/-- The code after the event loop (lines 288-290): log line and exit(1). -/
def loop_fallthrough : String × Nat := ("[cpg] oops, the event loop broke", 1)

/-! ## Helper lemmas -/

theorem str_data_append (s t : String) : (s ++ t).data = s.data ++ t.data := rfl

theorem str_length_eq (s : String) : s.length = s.data.length := rfl

theorem str_mk_data (s : String) : String.mk s.data = s := rfl

theorem str_length_append (s t : String) :
    (s ++ t).length = s.length + t.length := by
  rw [str_length_eq, str_length_eq s, str_length_eq t, str_data_append,
    List.length_append]

/-- For a `uint32_t` value, the decimal representation has at most 10 digits. -/
theorem toString_uint32_length_le (n : Nat) (h : n < 2 ^ 32) :
    (toString n).length ≤ 10 := by
  have h10 : n < 10 ^ 10 := lt_of_lt_of_le h (by norm_num)
  exact Nat.repr_length n 10 (by norm_num) h10

theorem startsWithL_self (pat : List Char) : startsWithL pat pat = true := by
  induction pat with
  | nil => rfl
  | cons p ps ih => simp [startsWithL, ih]

theorem containsSub_append_self (pat l : List Char) :
    containsSub pat (l ++ pat) = true := by
  induction l with
  | nil =>
    cases pat with
    | nil => rfl
    | cons p ps => simp [containsSub, startsWithL_self]
  | cons c cs ih => simp [containsSub, ih]

/-- A string obtained by appending the decimal rendering of `rc` includes
the numeric cause `rc`. -/
theorem msgHasCode_append (pre : String) (rc : Int) :
    msgHasCode (pre ++ toString rc) rc = true := by
  unfold msgHasCode
  rw [str_data_append]
  exact containsSub_append_self _ _

/-- Truncation to 127 characters is the identity on short strings. -/
theorem take127_eq (s : String) (h : s.length ≤ 127) :
    String.mk (s.data.take 127) = s := by
  rw [List.take_of_length_le (by rw [← str_length_eq]; omega)]

/-- For member counts that fit in `uint32_t`, snprintf's 128-byte buffer
never truncates the status string. -/
theorem update_ps_display_eq (r : Bool) (members : Nat) (h : members < 2 ^ 32) :
    update_ps_display r members =
      (if r then "[" ++ toString members ++ "] Hello!"
       else "[" ++ toString members ++ "] I'm the primary!") := by
  have hn := toString_uint32_length_le members h
  cases r <;>
    simp only [update_ps_display, if_true, if_false, Bool.false_eq_true] <;>
    apply take127_eq <;>
    rw [str_length_append, str_length_append] <;>
    [have hs : ("[" : String).length + ("] I'm the primary!" : String).length = 19 := rfl;
     have hs : ("[" : String).length + ("] Hello!" : String).length = 9 := rfl] <;>
    omega

theorem fmtAddr_eq (a : cpg_address) :
    fmtAddr a = (", ").data ++ pairChars a := by
  simp [fmtAddr, pairChars, str_data_append, List.append_assoc]

theorem foldl_append_fmt (view : List cpg_address) (acc : List Char) :
    view.foldl (fun acc a => acc ++ fmtAddr a) acc =
      acc ++ (view.map fmtAddr).flatten := by
  induction view generalizing acc with
  | nil => simp
  | cons a rest ih => simp [List.foldl_cons, ih, List.append_assoc]

theorem buildMsg_cons (a : cpg_address) (rest : List cpg_address) :
    buildMsg (a :: rest) = fmtAddr a ++ buildMsg rest := by
  simp [buildMsg, List.foldl_cons, foldl_append_fmt]

/-- The accumulated buffer of a non-empty view is the leading `", "`
separator followed by the `", "`-separated pair list. -/
theorem buildMsg_eq_sep (view : List cpg_address) (h : view ≠ []) :
    buildMsg view = (", ").data ++ pairListChars view := by
  induction view with
  | nil => exact absurd rfl h
  | cons a rest ih =>
    cases rest with
    | nil => simp [buildMsg_cons, buildMsg, fmtAddr_eq, pairListChars]
    | cons b rest2 =>
      rw [buildMsg_cons, ih (by simp), fmtAddr_eq]
      simp [pairListChars, List.append_assoc]

/-! ## Claims -/

/-- C2: the projected status string is a pure function of (members, role):
for every members count (fitting uint32) and role it equals
"[<members>] Hello!" when in recovery and "[<members>] I'm the primary!"
otherwise, and the string passed to the process-title sink is at most
128 bytes long. -/
theorem c2_status_projection (members : Nat) (r : Bool) (h : members < 2 ^ 32) :
    update_ps_display r members =
      (if r then "[" ++ toString members ++ "] Hello!"
       else "[" ++ toString members ++ "] I'm the primary!") ∧
    (update_ps_display r members).length ≤ 128 := by
  have hn := toString_uint32_length_le members h
  refine ⟨update_ps_display_eq r members h, ?_⟩
  rw [update_ps_display_eq r members h]
  cases r <;>
    simp only [if_true, if_false, Bool.false_eq_true] <;>
    rw [str_length_append, str_length_append] <;>
    [have hs : ("[" : String).length + ("] I'm the primary!" : String).length = 19 := rfl;
     have hs : ("[" : String).length + ("] Hello!" : String).length = 9 := rfl] <;>
    omega

theorem c2_status_projection_witness :
    (1 < 2 ^ 32) ∧
    (update_ps_display true 1 =
      (if true then "[" ++ toString 1 ++ "] Hello!"
       else "[" ++ toString 1 ++ "] I'm the primary!") ∧
     (update_ps_display true 1).length ≤ 128) :=
  ⟨by norm_num, c2_status_projection 1 true (by norm_num)⟩

/-- C4: the result of the single non-blocking dispatch attempt is
classified three ways: CS_OK is `delivered`, CS_ERR_TRY_AGAIN is `idle`
(loop continues), and every other code is `fatal`; a fatal classification
makes the loop iteration terminate with the FATAL log. -/
theorem c4_dispatch_classification (rc : Int) :
    (dispatchStep rc = .delivered ↔ rc = CS_OK) ∧
    (dispatchStep rc = .idle ↔ rc = CS_ERR_TRY_AGAIN) ∧
    ((∃ m, dispatchStep rc = .fatal m) ↔ (rc ≠ CS_OK ∧ rc ≠ CS_ERR_TRY_AGAIN)) ∧
    (∀ (m : String) (MyProcPid : Int) (s : AgentState) (inp : LoopInputs),
      inp.interruptExit = false → inp.rc = rc → dispatchStep rc = .fatal m →
      loopStep MyProcPid s inp = .fatalExit m) := by
  refine ⟨?_, ?_, ?_, ?_⟩
  · simp only [dispatchStep, CS_OK, CS_ERR_TRY_AGAIN]
    by_cases h1 : rc = (1 : Int)
    · simp [h1]
    · by_cases h2 : rc = (6 : Int) <;> simp [h1, h2]
  · simp only [dispatchStep, CS_OK, CS_ERR_TRY_AGAIN]
    by_cases h1 : rc = (1 : Int)
    · simp [h1]
    · by_cases h2 : rc = (6 : Int) <;> simp [h1, h2]
  · simp only [dispatchStep, CS_OK, CS_ERR_TRY_AGAIN]
    by_cases h1 : rc = (1 : Int)
    · simp [h1]
    · by_cases h2 : rc = (6 : Int) <;> simp [h1, h2]
  · intro m p s inp hie hrc hf
    unfold loopStep
    rw [hie, hrc, hf]
    simp

theorem c4_dispatch_classification_witness :
    ((2 : Int) ≠ CS_OK ∧ (2 : Int) ≠ CS_ERR_TRY_AGAIN) ∧
    (∃ m, dispatchStep 2 = .fatal m) :=
  ⟨by decide, (c4_dispatch_classification 2).2.2.1.mpr (by decide)⟩

/-- C7 as stated is false: the stored length of the group name is
strlen("pgsql_group") = 11, not 10. -/
theorem c7_counterexample :
    cpg_group.length = 11 ∧ ¬(cpg_group.length = 10) := by
  constructor <;> decide

/-- C7 (amended): the group name joined at startup consists of the
literal bytes `pgsql_group` with an explicit stored length of 11. -/
theorem c7_group_name :
    cpg_group.value = "pgsql_group" ∧ cpg_group.length = 11 := by
  constructor <;> decide

/-- C8: the configuration surface is exactly one integer option
`cpg.interval` in seconds, default 10, min 1, max INT_MAX/1000,
reloadable on SIGHUP; for every in-bounds value the wait timeout is
interval*1000 milliseconds and stays within the signed 32-bit int range
(no overflow). -/
theorem c8_config_surface (i : Int)
    (h1 : cpg_interval_guc.minVal ≤ i) (h2 : i ≤ cpg_interval_guc.maxVal) :
    cpg_gucs = [cpg_interval_guc] ∧
    cpg_interval_guc.name = "cpg.interval" ∧
    cpg_interval_guc.defaultVal = 10 ∧
    cpg_interval_guc.minVal = 1 ∧
    cpg_interval_guc.maxVal = INT_MAX / 1000 ∧
    cpg_interval_guc.context = GucContext.PGC_SIGHUP ∧
    wait_timeout_ms i = i * 1000 ∧
    -(2 ^ 31) ≤ i * 1000 ∧ i * 1000 ≤ INT_MAX := by
  have hmin : cpg_interval_guc.minVal = 1 := by decide
  have hmax : cpg_interval_guc.maxVal = 2147483 := by decide
  rw [hmin] at h1
  rw [hmax] at h2
  refine ⟨rfl, rfl, rfl, rfl, rfl, rfl, rfl, by omega, ?_⟩
  unfold INT_MAX
  omega

theorem c8_config_surface_witness :
    (cpg_interval_guc.minVal ≤ 10 ∧ (10 : Int) ≤ cpg_interval_guc.maxVal) ∧
    (wait_timeout_ms 10 = 10 * 1000 ∧
      -(2 ^ 31) ≤ (10 : Int) * 1000 ∧ (10 : Int) * 1000 ≤ INT_MAX) :=
  ⟨by decide, (c8_config_surface 10 (by decide) (by decide)).2.2.2.2.2.2⟩

/-- C9: SIGTERM logs a line containing "…and leaving" and exits 0; the
fall-through after the event loop exits 1 and is unreachable: no branch
of the loop body leaves the `for(;;)` loop normally. -/
theorem c9_sigterm_and_fallthrough :
    cpg_sigterm.2 = 0 ∧
    containsSub ("…and leaving").data cpg_sigterm.1.data = true ∧
    loop_fallthrough.2 = 1 ∧
    ∀ (MyProcPid : Int) (s : AgentState) (inp : LoopInputs),
      loopStep MyProcPid s inp ≠ IterOutcome.breakLoop := by
  refine ⟨rfl, by decide, rfl, ?_⟩
  intro p s inp
  unfold loopStep loopTail
  repeat' split
  all_goals simp

/-- C3 as stated is false: there is no distinct demotion message. On the
transition from primary back into recovery the code logs the very same
"I've been promoted!" line it logs on promotion, so a promotion log line
is emitted even though the previous sampled role was not in-recovery. -/
theorem c3_counterexample :
    (roleCheck false true 5).logLine = "[cpg] I've been promoted!" ∧
    (roleCheck false true 5).logLine = (roleCheck true false 5).logLine := by
  constructor <;> decide

/-- C3 (amended): on each loop iteration, when the sampled role differs
from the last-observed role the agent logs "I've been promoted!"
(whatever the direction of the transition), updates the stored role and
refreshes the status; the promotion log line is emitted iff the sampled
role differs from the previous one. When the role is unchanged the
heartbeat is logged and nothing is updated. -/
theorem c3_role_transition (last roleNow : Bool) (members : Nat) :
    ((roleCheck last roleNow members).logLine = "[cpg] I've been promoted!" ↔
      roleNow ≠ last) ∧
    (roleNow ≠ last →
      (roleCheck last roleNow members).in_recovery = roleNow ∧
      (roleCheck last roleNow members).psUpdate =
        some (update_ps_display roleNow members)) ∧
    (roleNow = last →
      roleCheck last roleNow members =
        { in_recovery := last, logLine := "[cpg] Hi!", psUpdate := none }) := by
  by_cases h : roleNow = last
  · subst h
    have hr : roleCheck roleNow roleNow members =
        { in_recovery := roleNow, logLine := "[cpg] Hi!", psUpdate := none } := by
      simp [roleCheck]
    rw [hr]
    refine ⟨by simp, fun hc => absurd rfl hc, fun _ => rfl⟩
  · have hr : roleCheck last roleNow members =
        { in_recovery := roleNow
          logLine := "[cpg] I've been promoted!"
          psUpdate := some (update_ps_display roleNow members) } := by
      simp [roleCheck, h]
    rw [hr]
    exact ⟨⟨fun _ => h, fun _ => rfl⟩, fun _ => ⟨rfl, rfl⟩, fun hc => absurd hc h⟩

theorem c3_role_transition_witness :
    (true ≠ false) ∧
    ((roleCheck false true 7).in_recovery = true ∧
      (roleCheck false true 7).psUpdate = some (update_ps_display true 7)) :=
  ⟨by decide, (c3_role_transition false true 7).2.1 (by decide)⟩

/-- C1: if the left list delivered to the membership callback is non-empty
and its first element equals our own `(MyNodeID, MyProcPid)`, the callback
terminates the agent fatally with the "I left the closed process group"
message, and the containing loop iteration ends in that fatal exit; if the
left list's head is not our own address (in particular when our address
occurs only at a position other than 0), no self-eviction is triggered and
the callback completes normally. -/
theorem c1_self_eviction (MyProcPid : Int) (s : AgentState)
    (m l j : List cpg_address) (inp : LoopInputs) :
    (∀ a, l.head? = some a → a.nodeid = s.MyNodeID → toInt32 a.pid = MyProcPid →
      (∃ mem ps lg, cs_config_cb s.MyNodeID MyProcPid s.in_recovery m l j =
        .fatal mem ps lg "[cpg] I left the closed process group!") ∧
      (inp.interruptExit = false → inp.rc = CS_OK →
        inp.cbArgs = some (m, l, j) →
        loopStep MyProcPid s inp =
          .fatalExit "[cpg] I left the closed process group!")) ∧
    (∀ a, l.head? = some a →
      ¬(a.nodeid = s.MyNodeID ∧ toInt32 a.pid = MyProcPid) →
      (∃ i : Fin l.length, (l.get i).nodeid = s.MyNodeID ∧
        toInt32 (l.get i).pid = MyProcPid ∧ i.val ≠ 0) →
      ∃ mem ps lg, cs_config_cb s.MyNodeID MyProcPid s.in_recovery m l j =
        .normal mem ps lg) := by
  constructor
  · intro a ha h1 h2
    cases l with
    | nil => simp at ha
    | cons b rest =>
      simp only [List.head?_cons, Option.some.injEq] at ha
      subst ha
      have hcc : cs_config_cb s.MyNodeID MyProcPid s.in_recovery m (b :: rest) j =
          .fatal (m.length % 2 ^ 32)
            (update_ps_display s.in_recovery (m.length % 2 ^ 32))
            ("[cpg] " ++ toString j.length ++ " join, " ++
              toString (b :: rest).length ++ " left, procs in group now: " ++
              String.mk ((buildMsg m).drop 2))
            "[cpg] I left the closed process group!" := by
        simp [cs_config_cb, h1, h2]
      refine ⟨⟨_, _, _, hcc⟩, ?_⟩
      intro hie hrc hcb
      unfold loopStep
      rw [hie, hrc, hcb]
      simp [dispatchStep, CS_OK, hcc]
  · intro a ha hne _
    cases l with
    | nil => simp at ha
    | cons b rest =>
      simp only [List.head?_cons, Option.some.injEq] at ha
      subst ha
      have hcond : ¬(toInt32 b.pid = MyProcPid ∧ b.nodeid = s.MyNodeID) :=
        fun hc => hne ⟨hc.2, hc.1⟩
      have hcc : cs_config_cb s.MyNodeID MyProcPid s.in_recovery m (b :: rest) j =
          .normal (m.length % 2 ^ 32)
            (update_ps_display s.in_recovery (m.length % 2 ^ 32))
            ("[cpg] " ++ toString j.length ++ " join, " ++
              toString (b :: rest).length ++ " left, procs in group now: " ++
              String.mk ((buildMsg m).drop 2)) := by
        simp [cs_config_cb, hcond]
      exact ⟨_, _, _, hcc⟩

theorem c1_self_eviction_witness :
    ((([(⟨7, 123⟩ : cpg_address)] : List cpg_address).head? = some ⟨7, 123⟩ ∧
      (⟨7, 123⟩ : cpg_address).nodeid = 7 ∧
      toInt32 (⟨7, 123⟩ : cpg_address).pid = 123) ∧
     (∃ mem ps lg, cs_config_cb 7 123 true [] [⟨7, 123⟩] [] =
        .fatal mem ps lg "[cpg] I left the closed process group!") ∧
     loopStep 123 ⟨10, true, 0, 7⟩
        ⟨false, CS_OK, some ([], [⟨7, 123⟩], []), true, none⟩ =
        .fatalExit "[cpg] I left the closed process group!") ∧
    (∃ mem ps lg, cs_config_cb 7 123 true [] [⟨8, 123⟩, ⟨7, 123⟩] [] =
        .normal mem ps lg) := by
  have h1 := (c1_self_eviction 123 ⟨10, true, 0, 7⟩ [] [⟨7, 123⟩] []
    ⟨false, CS_OK, some ([], [⟨7, 123⟩], []), true, none⟩).1
    ⟨7, 123⟩ rfl rfl (by decide)
  have h2 := (c1_self_eviction 123 ⟨10, true, 0, 7⟩ [] [⟨8, 123⟩, ⟨7, 123⟩] []
    ⟨false, CS_OK, none, true, none⟩).2
    ⟨8, 123⟩ rfl (by decide)
    ⟨⟨1, by decide⟩, rfl, by decide, by decide⟩
  exact ⟨⟨⟨rfl, rfl, by decide⟩, h1.1, h1.2 rfl rfl rfl⟩, h2⟩

/-- Members are only written by loopTail through record updates that leave
the field untouched. -/
theorem loopTail_members (s : AgentState) (inp : LoopInputs) (s' : AgentState)
    (t : Int) (h : loopTail s inp = .next s' t) : s'.members = s.members := by
  unfold loopTail at h
  cases hr : inp.reload <;> rw [hr] at h <;>
    simp only [IterOutcome.next.injEq] at h <;>
    rw [← h.1]

/-- C5: after a membership callback delivering view V (of size fitting
uint32), the stored members counter equals |V|; and any loop iteration
that delivers no membership callback leaves the counter unchanged, so the
equality persists until the next delivery. -/
theorem c5_view_cardinality (MyNodeID : Nat) (MyProcPid : Int) (inrec : Bool)
    (m l j : List cpg_address) (p : Int) (s s' : AgentState)
    (inp : LoopInputs) (t : Int) :
    (m.length < 2 ^ 32 →
      (cs_config_cb MyNodeID MyProcPid inrec m l j).membersOf = m.length) ∧
    (inp.cbArgs = none → loopStep p s inp = .next s' t →
      s'.members = s.members) := by
  constructor
  · intro h
    have h' : m.length < 4294967296 := by simpa using h
    cases l with
    | nil => simp [cs_config_cb, CbResult.membersOf, Nat.mod_eq_of_lt h']
    | cons a rest =>
      by_cases hc : toInt32 a.pid = MyProcPid ∧ a.nodeid = MyNodeID <;>
        simp [cs_config_cb, hc, CbResult.membersOf, Nat.mod_eq_of_lt h']
  · intro hcb hstep
    unfold loopStep at hstep
    by_cases hie : inp.interruptExit = true
    · rw [hie] at hstep
      simp at hstep
    · rw [Bool.not_eq_true] at hie
      rw [hie] at hstep
      simp only [Bool.false_eq_true, if_false] at hstep
      cases hd : dispatchStep inp.rc with
      | fatal msg =>
        rw [hd] at hstep
        simp at hstep
      | delivered =>
        rw [hd, hcb] at hstep
        exact loopTail_members s inp s' t hstep
      | idle =>
        rw [hd] at hstep
        exact loopTail_members s inp s' t hstep

theorem c5_view_cardinality_witness :
    ((([(⟨1, 2⟩ : cpg_address)] : List cpg_address).length < 2 ^ 32) ∧
      (cs_config_cb 5 9 true [⟨1, 2⟩] [] []).membersOf = 1) ∧
    ((⟨false, CS_ERR_TRY_AGAIN, none, true, none⟩ : LoopInputs).cbArgs = none ∧
      (⟨10, true, 3, 7⟩ : AgentState).members =
        (⟨10, true, 3, 7⟩ : AgentState).members) := by
  refine ⟨⟨by norm_num, ?_⟩, rfl, ?_⟩
  · exact (c5_view_cardinality 5 9 true [⟨1, 2⟩] [] [] 0 ⟨10, true, 3, 7⟩
      ⟨10, true, 3, 7⟩ ⟨false, CS_ERR_TRY_AGAIN, none, true, none⟩ 10000).1
      (by norm_num)
  · exact (c5_view_cardinality 5 9 true [⟨1, 2⟩] [] [] 0 ⟨10, true, 3, 7⟩
      ⟨10, true, 3, 7⟩ ⟨false, CS_ERR_TRY_AGAIN, none, true, none⟩ 10000).2
      rfl (by decide)

/-- C6 as stated is false: the join failure with CS_ERR_INVALID_PARAM
surfaces as the FATAL log "the handle is already joined to a group",
which does not include the numeric cause (the digits of code 7 do not
occur in the message). -/
theorem c6_counterexample :
    openSequence CS_OK CS_ERR_INVALID_PARAM CS_OK CS_OK =
      .fatalLog "[cpg] the handle is already joined to a group" ∧
    msgHasCode "[cpg] the handle is already joined to a group"
      CS_ERR_INVALID_PARAM = false := by
  constructor <;> decide

/-- C6 (amended): every failure of the session-open sequence surfaces as
a FATAL log; the initialization, could-not-join, local-node-id and
file-descriptor failures include the numeric cause in the message, while
the INVALID_PARAM join failure logs the fixed "already joined" message
without the numeric code. -/
theorem c6_open_failures (rc_init rc_join rc_local rc_fd : Int) :
    (rc_init ≠ CS_OK →
      openSequence rc_init rc_join rc_local rc_fd =
        .fatalLog ("[cpg] could not init the cpg handle: " ++ toString rc_init) ∧
      msgHasCode ("[cpg] could not init the cpg handle: " ++ toString rc_init)
        rc_init = true) ∧
    (rc_init = CS_OK → rc_join = CS_ERR_INVALID_PARAM →
      openSequence rc_init rc_join rc_local rc_fd =
        .fatalLog "[cpg] the handle is already joined to a group") ∧
    (rc_init = CS_OK → rc_join ≠ CS_OK → rc_join ≠ CS_ERR_INVALID_PARAM →
      openSequence rc_init rc_join rc_local rc_fd =
        .fatalLog ("[cpg] could not join the close process group: " ++
          toString rc_join) ∧
      msgHasCode ("[cpg] could not join the close process group: " ++
        toString rc_join) rc_join = true) ∧
    (rc_init = CS_OK → rc_join = CS_OK → rc_local ≠ CS_OK →
      openSequence rc_init rc_join rc_local rc_fd =
        .fatalLog ("[cpg] failed to get local nodeid: " ++ toString rc_local) ∧
      msgHasCode ("[cpg] failed to get local nodeid: " ++ toString rc_local)
        rc_local = true) ∧
    (rc_init = CS_OK → rc_join = CS_OK → rc_local = CS_OK → rc_fd ≠ CS_OK →
      openSequence rc_init rc_join rc_local rc_fd =
        .fatalLog ("[cpg] failed to get the CPG file descriptor: " ++
          toString rc_fd) ∧
      msgHasCode ("[cpg] failed to get the CPG file descriptor: " ++
        toString rc_fd) rc_fd = true) := by
  refine ⟨?_, ?_, ?_, ?_, ?_⟩
  · intro h
    exact ⟨by simp [openSequence, h], msgHasCode_append _ _⟩
  · intro h1 h2
    simp [openSequence, h1, h2, CS_OK, CS_ERR_INVALID_PARAM]
  · intro h1 h2 h3
    exact ⟨by simp [openSequence, h1, h2, h3], msgHasCode_append _ _⟩
  · intro h1 h2 h3
    exact ⟨by simp [openSequence, h1, h2, h3], msgHasCode_append _ _⟩
  · intro h1 h2 h3 h4
    exact ⟨by simp [openSequence, h1, h2, h3, h4], msgHasCode_append _ _⟩

theorem c6_open_failures_witness :
    ((2 : Int) ≠ CS_OK) ∧
    (openSequence 2 1 1 1 =
      .fatalLog ("[cpg] could not init the cpg handle: " ++ toString (2 : Int)) ∧
     msgHasCode ("[cpg] could not init the cpg handle: " ++ toString (2 : Int))
       2 = true) :=
  ⟨by decide, (c6_open_failures 2 1 1 1).1 (by decide)⟩

/-- C10: the logged member-list string is the accumulated buffer with its
first two bytes skipped (dropping the leading ", "); for a non-empty view
the offset 2 is within the written portion of the buffer and the result
lists exactly the view's nodeid/pid pairs in order, separated by ", ";
for an empty view the buffer holds no content bytes, so offset 2 points
past the initialized content (only the terminator at index 0 is written). -/
theorem c10_memberlist_offset (view : List cpg_address) :
    (view ≠ [] →
      2 ≤ (buildMsg view).length ∧
      (buildMsg view).drop 2 = pairListChars view) ∧
    ((buildMsg []).length < 2 ∧ buildMsg [] = []) := by
  constructor
  · intro h
    rw [buildMsg_eq_sep view h]
    constructor
    · rw [List.length_append]
      have h2 : ((", ") : String).data.length = 2 := rfl
      omega
    · have h2 : ((", ") : String).data.length = 2 := rfl
      rw [← h2, List.drop_left]
  · exact ⟨by decide, rfl⟩

theorem c10_memberlist_offset_witness :
    (([(⟨1, 2⟩ : cpg_address)] : List cpg_address) ≠ []) ∧
    (2 ≤ (buildMsg [⟨1, 2⟩]).length ∧
      (buildMsg [⟨1, 2⟩]).drop 2 = pairListChars [⟨1, 2⟩]) :=
  ⟨by decide, (c10_memberlist_offset [⟨1, 2⟩]).1 (by decide)⟩

end Cpg
